import Mathlib

/-!
Shallow embedding of the ergonomics risk-analysis library:
the risk calculators and risk-level mapping from
src/lib/ergonomics/calculations.ts, the recommendation generator and its
template fallback, and the risk-analysis utilities (priority areas, risk
trend).  Numbers are modelled as rationals, JavaScript `Math.round` as
`fun x => Int.floor (x + 1/2)`, and JavaScript stable `Array.prototype.sort`
as `List.insertionSort` (which is stable).
-/

namespace Ergo

/-- JavaScript `Math.round`: round half toward positive infinity. -/
def jsRound (x : ℚ) : ℤ := Int.floor (x + 1/2)

/- ### Enumerations from src/types/ergonomics.ts -/

inductive ShoulderPosition | relaxed | elevated | hunched | forward
deriving DecidableEq, Repr

inductive BackCurvature | natural | straight | slouched | arched
deriving DecidableEq, Repr

inductive WristPosition | neutral | extended | flexed | deviated
deriving DecidableEq, Repr

inductive FeetPosition | flatFloor | footrest | dangling | crossed
deriving DecidableEq, Repr

inductive KeyboardPosition | desktop | tray | adjustable
deriving DecidableEq, Repr

inductive LightingQuality | poor | fair | good | excellent
deriving DecidableEq, Repr

inductive NoiseLevel | quiet | moderate | loud | veryLoud
deriving DecidableEq, Repr

inductive SymptomType | neck | shoulder | back | wrist | eye | hip | knee | foot
deriving DecidableEq, Repr

inductive Severity | none | mild | moderate | severe
deriving DecidableEq, Repr

inductive Frequency | never | rarely | sometimes | often | always
deriving DecidableEq, Repr

inductive RiskLevel | low | moderate | high | critical
deriving DecidableEq, Repr

inductive Category | posture | movement | environment | equipment | time
deriving DecidableEq, Repr

inductive Trend | improving | declining | stable
deriving DecidableEq, Repr

/- ### Data structures -/

structure UserProfile where
  id : String
  age : ℚ
  height : ℚ
  weight : ℚ
  workHoursPerDay : ℚ
deriving DecidableEq, Repr

structure WorkspaceSetup where
  deskHeight : ℚ
  chairHeight : ℚ
  monitorDistance : ℚ
  monitorHeight : ℚ
  keyboardPosition : KeyboardPosition
  mousePosition : KeyboardPosition
  footSupport : Bool
  lumbarSupport : Bool
  armrestSupport : Bool
  lightingQuality : LightingQuality
  noiseLevel : NoiseLevel
deriving DecidableEq, Repr

structure PostureData where
  neckAngle : ℚ
  shoulderPosition : ShoulderPosition
  backCurvature : BackCurvature
  elbowAngle : ℚ
  wristPosition : WristPosition
  hipAngle : ℚ
  kneeAngle : ℚ
  feetPosition : FeetPosition
deriving DecidableEq, Repr

structure RepetitiveMotions where
  typing : ℚ
  mouseClicks : ℚ
  reachingMovements : ℚ
deriving DecidableEq, Repr

structure MovementPatterns where
  screenBreakFrequency : ℚ
  stretchingFrequency : ℚ
  walkingFrequency : ℚ
  postureChanges : ℚ
  repetitiveMotions : RepetitiveMotions
deriving DecidableEq, Repr

structure HealthSymptom where
  id : String
  type : SymptomType
  severity : Severity
  frequency : Frequency
  description : String
deriving DecidableEq, Repr

structure RiskCalculationInput where
  workspace : WorkspaceSetup
  posture : PostureData
  movement : MovementPatterns
  symptoms : List HealthSymptom
  userProfile : UserProfile
deriving DecidableEq, Repr

structure RiskFactor where
  category : Category
  name : String
  severity : RiskLevel
  score : ℚ
  description : String
  impact : String
deriving DecidableEq, Repr

/- ### Posture risk (calculatePostureRisk) -/

/-- Neck angle risk block of calculatePostureRisk (optimal: 0-15 degrees). -/
def neckRisk (neckAngle : ℚ) : ℚ :=
  if |neckAngle| > 45 then 25
  else if |neckAngle| > 30 then 15
  else if |neckAngle| > 15 then 8
  else 0

/-- Shoulder position risk table. -/
def shoulderRisk : ShoulderPosition → ℚ
  | .relaxed => 0
  | .elevated => 15
  | .hunched => 20
  | .forward => 18

/-- Back curvature risk table. -/
def backRisk : BackCurvature → ℚ
  | .natural => 0
  | .straight => 10
  | .slouched => 25
  | .arched => 15

/-- Elbow angle risk block (optimal: 90-110 degrees, deviation from 100). -/
def elbowRisk (elbowAngle : ℚ) : ℚ :=
  if |elbowAngle - 100| > 30 then 15
  else if |elbowAngle - 100| > 15 then 8
  else 0

/-- Wrist position risk table. -/
def wristRisk : WristPosition → ℚ
  | .neutral => 0
  | .extended => 12
  | .flexed => 15
  | .deviated => 18

/-- Hip angle risk block (optimal: 90-110 degrees, deviation from 100). -/
def hipRisk (hipAngle : ℚ) : ℚ :=
  if |hipAngle - 100| > 20 then 10
  else if |hipAngle - 100| > 10 then 5
  else 0

/-- Feet position risk table. -/
def feetRisk : FeetPosition → ℚ
  | .flatFloor => 0
  | .footrest => 2
  | .dangling => 15
  | .crossed => 12

/-- Age multiplier of calculatePostureRisk. -/
def ageMultiplier (age : ℚ) : ℚ :=
  if age > 50 then 1.2 else if age > 35 then 1.1 else 1.0

/-- Work hours multiplier of calculatePostureRisk. -/
def hoursMultiplier (workHoursPerDay : ℚ) : ℚ :=
  if workHoursPerDay > 8 then 1.3 else if workHoursPerDay > 6 then 1.1 else 1.0

/-- calculatePostureRisk from src/lib/ergonomics/calculations.ts. -/
def calculatePostureRisk (posture : PostureData) (userProfile : UserProfile) : ℚ :=
  let riskScore :=
    neckRisk posture.neckAngle +
    shoulderRisk posture.shoulderPosition +
    backRisk posture.backCurvature +
    elbowRisk posture.elbowAngle +
    wristRisk posture.wristPosition +
    hipRisk posture.hipAngle +
    feetRisk posture.feetPosition
  min 100 (riskScore * ageMultiplier userProfile.age * hoursMultiplier userProfile.workHoursPerDay)

/- ### Workspace risk (calculateWorkspaceRisk) -/

/-- Desk height risk block: deviation from the ideal desk height
(user height times 0.45). -/
def deskRisk (deskHeight height : ℚ) : ℚ :=
  if |deskHeight - height * 0.45| > 10 then 15
  else if |deskHeight - height * 0.45| > 5 then 8
  else 0

/-- Monitor distance risk block (optimal: 50-70cm). -/
def monitorDistanceRisk (d : ℚ) : ℚ :=
  if d < 40 ∨ d > 80 then 12
  else if d < 50 ∨ d > 70 then 6
  else 0

/-- Monitor height risk block (top should be at or below eye level). -/
def monitorHeightRisk (h : ℚ) : ℚ :=
  if h > 15 then 10
  else if h > 5 then 5
  else if h < -10 then 8
  else 0

/-- Lighting quality risk table. -/
def lightingRisk : LightingQuality → ℚ
  | .excellent => 0
  | .good => 3
  | .fair => 8
  | .poor => 15

/-- Noise level risk table. -/
def noiseRisk : NoiseLevel → ℚ
  | .quiet => 0
  | .moderate => 3
  | .loud => 8
  | .veryLoud => 12

/-- calculateWorkspaceRisk from src/lib/ergonomics/calculations.ts. -/
def calculateWorkspaceRisk (workspace : WorkspaceSetup) (userProfile : UserProfile) : ℚ :=
  let riskScore :=
    deskRisk workspace.deskHeight userProfile.height +
    monitorDistanceRisk workspace.monitorDistance +
    monitorHeightRisk workspace.monitorHeight +
    (if workspace.keyboardPosition = KeyboardPosition.desktop then 8 else 0) +
    (if workspace.mousePosition = KeyboardPosition.desktop then 6 else 0) +
    (if workspace.footSupport then 0 else 8) +
    (if workspace.lumbarSupport then 0 else 15) +
    (if workspace.armrestSupport then 0 else 10) +
    lightingRisk workspace.lightingQuality +
    noiseRisk workspace.noiseLevel
  min 100 riskScore

/- ### Movement risk (calculateMovementRisk) -/

/-- Screen break frequency block (recommended: 2 per hour). -/
def breakRisk (screenBreakFrequency : ℚ) : ℚ :=
  if screenBreakFrequency < 1 then 20
  else if screenBreakFrequency < 2 then 10
  else 0

/-- Stretching frequency block (recommended: 3-5 times per day). -/
def stretchRisk (stretchingFrequency : ℚ) : ℚ :=
  if stretchingFrequency < 2 then 15
  else if stretchingFrequency < 3 then 8
  else 0

/-- Walking frequency block (recommended: every hour). -/
def walkRisk (walkingFrequency : ℚ) : ℚ :=
  if walkingFrequency < 0.5 then 18
  else if walkingFrequency < 1 then 10
  else 0

/-- Posture changes block (recommended: every 30 minutes). -/
def postureChangeRisk (postureChanges : ℚ) : ℚ :=
  if postureChanges < 1 then 12
  else if postureChanges < 2 then 6
  else 0

/-- Typing-rate block: the source tests `typing > 300` first and
`typing > 400` only in the `else` branch. -/
def typingRisk (typing : ℚ) : ℚ :=
  if typing > 300 then 10
  else if typing > 400 then 15
  else 0

/-- Mouse-click block: `mouseClicks > 100` is tested first, `> 150` in the
`else` branch. -/
def mouseClickRisk (mouseClicks : ℚ) : ℚ :=
  if mouseClicks > 100 then 8
  else if mouseClicks > 150 then 12
  else 0

/-- Reaching block: `reachingMovements > 20` is tested first, `> 30` in
the `else` branch. -/
def reachingRisk (reachingMovements : ℚ) : ℚ :=
  if reachingMovements > 20 then 10
  else if reachingMovements > 30 then 15
  else 0

/-- calculateMovementRisk from src/lib/ergonomics/calculations.ts. -/
def calculateMovementRisk (movement : MovementPatterns) : ℚ :=
  let riskScore :=
    breakRisk movement.screenBreakFrequency +
    stretchRisk movement.stretchingFrequency +
    walkRisk movement.walkingFrequency +
    postureChangeRisk movement.postureChanges +
    typingRisk movement.repetitiveMotions.typing +
    mouseClickRisk movement.repetitiveMotions.mouseClicks +
    reachingRisk movement.repetitiveMotions.reachingMovements
  min 100 riskScore

/- ### Symptoms risk (calculateSymptomsRisk) -/

/-- Severity multiplier table. -/
def severityScore : Severity → ℚ
  | .none => 0
  | .mild => 1
  | .moderate => 2
  | .severe => 3

/-- Frequency multiplier table. -/
def frequencyScore : Frequency → ℚ
  | .never => 0
  | .rarely => 0.5
  | .sometimes => 1
  | .often => 2
  | .always => 3

/-- Critical area test: neck, back or wrist symptoms get an extra penalty. -/
def criticalArea (t : SymptomType) : Bool :=
  match t with
  | .neck => true
  | .back => true
  | .wrist => true
  | _ => false

/-- calculateSymptomsRisk from src/lib/ergonomics/calculations.ts. -/
def calculateSymptomsRisk (symptoms : List HealthSymptom) : ℚ :=
  if symptoms.length = 0 then 0
  else
    let riskScore :=
      (symptoms.map (fun s => 5 + if criticalArea s.type then (5 : ℚ) else 0)).sum
    let severityMultiplier := (symptoms.map (fun s => severityScore s.severity)).sum
    let frequencyMultiplier := (symptoms.map (fun s => frequencyScore s.frequency)).sum
    let averageSeverity := severityMultiplier / (symptoms.length : ℚ)
    let averageFrequency := frequencyMultiplier / (symptoms.length : ℚ)
    min 100 ((jsRound (riskScore * ((1 + averageSeverity * 0.5) * (1 + averageFrequency * 0.3))) : ℤ) : ℚ)

/- ### Overall score and risk level -/

/-- calculateOverallRiskScore: weighted average with emphasis on symptoms
and posture, rounded and clamped to [0, 100]. -/
def calculateOverallRiskScore (input : RiskCalculationInput) : ℚ :=
  let postureScore := calculatePostureRisk input.posture input.userProfile
  let workspaceScore := calculateWorkspaceRisk input.workspace input.userProfile
  let movementScore := calculateMovementRisk input.movement
  let symptomsScore := calculateSymptomsRisk input.symptoms
  let weightedScore :=
    postureScore * 0.3 + workspaceScore * 0.25 + movementScore * 0.25 + symptomsScore * 0.2
  min 100 (max 0 ((jsRound weightedScore : ℤ) : ℚ))

/-- getRiskLevel from src/lib/ergonomics/calculations.ts. -/
def getRiskLevel (score : ℚ) : RiskLevel :=
  if score < 25 then RiskLevel.low
  else if score < 50 then RiskLevel.moderate
  else if score < 75 then RiskLevel.high
  else RiskLevel.critical

/-- Numeric rank of a risk level, realising low < moderate < high < critical. -/
def riskLevelRank : RiskLevel → ℕ
  | .low => 0
  | .moderate => 1
  | .high => 2
  | .critical => 3

/- ### Risk factor generation (generateRiskFactors) -/

/-- Descending-by-score comparison used by the factor sort
`factors.sort((a, b) => b.score - a.score)`. -/
def factorGE (a b : RiskFactor) : Prop := b.score ≤ a.score

instance : DecidableRel factorGE :=
  fun a b => inferInstanceAs (Decidable (b.score ≤ a.score))

instance : IsTotal RiskFactor factorGE := ⟨fun a b => le_total b.score a.score⟩

instance : IsTrans RiskFactor factorGE := ⟨fun _ _ _ hab hbc => le_trans hbc hab⟩

/-- The factor list in emission order: posture, equipment (workspace),
movement, time, symptom-derived, each behind its threshold, before the
final sort. -/
def emittedFactors (input : RiskCalculationInput) : List RiskFactor :=
  let postureScore := calculatePostureRisk input.posture input.userProfile
  let workspaceScore := calculateWorkspaceRisk input.workspace input.userProfile
  let movementScore := calculateMovementRisk input.movement
  let symptomsScore := calculateSymptomsRisk input.symptoms
  (if postureScore > 25 then
    [{ category := Category.posture
       name := "Poor Posture Alignment"
       severity := getRiskLevel postureScore
       score := postureScore
       description := "Current posture deviates significantly from ergonomic guidelines"
       impact := "May lead to neck, back, and shoulder strain over time" }]
   else []) ++
  (if workspaceScore > 25 then
    [{ category := Category.equipment
       name := "Suboptimal Workspace Setup"
       severity := getRiskLevel workspaceScore
       score := workspaceScore
       description := "Workspace configuration does not support proper ergonomics"
       impact := "Increases risk of musculoskeletal disorders and eye strain" }]
   else []) ++
  (if movementScore > 25 then
    [{ category := Category.movement
       name := "Insufficient Movement Patterns"
       severity := getRiskLevel movementScore
       score := movementScore
       description := "Limited movement and breaks during work hours"
       impact := "May cause muscle stiffness, reduced circulation, and fatigue" }]
   else []) ++
  (if input.userProfile.workHoursPerDay > 8 then
    [{ category := Category.time
       name := "Extended Work Hours"
       severity := if input.userProfile.workHoursPerDay > 10 then RiskLevel.high else RiskLevel.moderate
       score := min 100 ((input.userProfile.workHoursPerDay - 8) * 15)
       description := "Working " ++ toString input.userProfile.workHoursPerDay ++ " hours per day exceeds recommendations"
       impact := "Prolonged exposure increases all ergonomic risks" }]
   else []) ++
  (if symptomsScore > 0 then
    [{ category := Category.posture
       name := "Existing Discomfort/Pain"
       severity := getRiskLevel symptomsScore
       score := symptomsScore
       description := "Reported symptoms indicate current ergonomic issues"
       impact := "Existing symptoms may worsen without intervention" }]
   else [])

/-- generateRiskFactors: emit the factors, then a stable descending sort
by score. -/
def generateRiskFactors (input : RiskCalculationInput) : List RiskFactor :=
  List.insertionSort factorGE (emittedFactors input)

/- ### Improvement between two scores (calculateImprovement) -/

structure Improvement where
  percentage : ℤ
  trend : Trend
deriving DecidableEq, Repr

/-- calculateImprovement: signed rounded percentage of baseline decides the
trend, but the returned percentage is its absolute value. -/
def calculateImprovement (previousScore currentScore : ℚ) : Improvement :=
  let difference := currentScore - previousScore
  let percentage : ℤ := if previousScore > 0 then jsRound (difference / previousScore * 100) else 0
  let trend :=
    if |percentage| < 5 then Trend.stable
    else if percentage < 0 then Trend.improving
    else Trend.declining
  { percentage := |percentage|, trend := trend }

/- ### Priority areas (identifyPriorityAreas) -/

/-- Contiguous-subsequence test on character lists, modelling
JavaScript `String.prototype.includes`. -/
def charSeqIncludes (pattern : List Char) : List Char → Bool
  | [] => pattern.isEmpty
  | c :: rest => pattern.isPrefixOf (c :: rest) || charSeqIncludes pattern rest

/-- JavaScript `name.includes(pattern)` on strings. -/
def strIncludes (s pattern : String) : Bool :=
  charSeqIncludes pattern.toList s.toList

/-- identifyPriorityAreas from the risk-analysis utilities: category
advisories for the top three high/critical factors, an urgent sentence
prepended for a critical posture discomfort factor, truncated to 5. -/
def identifyPriorityAreas (factors : List RiskFactor) : List String :=
  let sortedFactors :=
    List.insertionSort factorGE
      (factors.filter (fun f =>
        decide (f.severity = RiskLevel.critical) || decide (f.severity = RiskLevel.high)))
  let categories := (sortedFactors.take 3).map RiskFactor.category
  let priorities :=
    (if Category.posture ∈ categories then
      ["Improve posture alignment and body positioning"] else []) ++
    (if Category.equipment ∈ categories then
      ["Upgrade workspace equipment and setup"] else []) ++
    (if Category.movement ∈ categories then
      ["Increase movement and break frequency"] else []) ++
    (if Category.environment ∈ categories then
      ["Optimize environmental conditions"] else []) ++
    (if Category.time ∈ categories then
      ["Manage work duration and scheduling"] else [])
  let criticalSymptoms :=
    factors.filter (fun f =>
      decide (f.category = Category.posture) &&
      strIncludes f.name "Discomfort" &&
      decide (f.severity = RiskLevel.critical))
  let priorities :=
    if criticalSymptoms.length > 0 then
      "Address existing pain and discomfort immediately" :: priorities
    else priorities
  priorities.take 5

/- ### Risk trend over time (calculateRiskTrend) -/

/-- The slice of an ErgonomicAssessment that the trend and recommendation
code reads: dates are epoch milliseconds as rationals. -/
structure ErgonomicAssessment where
  id : String
  userId : String
  assessmentDate : ℚ
  workspaceSetup : WorkspaceSetup
  postureData : PostureData
  movementPatterns : MovementPatterns
  symptoms : List HealthSymptom
  overallScore : ℚ
  riskLevel : RiskLevel
deriving DecidableEq, Repr

instance : Inhabited ErgonomicAssessment :=
  ⟨{ id := ""
     userId := ""
     assessmentDate := 0
     workspaceSetup :=
       { deskHeight := 0, chairHeight := 0, monitorDistance := 0, monitorHeight := 0
         keyboardPosition := KeyboardPosition.desktop, mousePosition := KeyboardPosition.desktop
         footSupport := false, lumbarSupport := false, armrestSupport := false
         lightingQuality := LightingQuality.fair, noiseLevel := NoiseLevel.moderate }
     postureData :=
       { neckAngle := 0, shoulderPosition := ShoulderPosition.relaxed
         backCurvature := BackCurvature.natural, elbowAngle := 0
         wristPosition := WristPosition.neutral, hipAngle := 0, kneeAngle := 0
         feetPosition := FeetPosition.flatFloor }
     movementPatterns :=
       { screenBreakFrequency := 0, stretchingFrequency := 0, walkingFrequency := 0
         postureChanges := 0
         repetitiveMotions := { typing := 0, mouseClicks := 0, reachingMovements := 0 } }
     symptoms := []
     overallScore := 0
     riskLevel := RiskLevel.low }⟩

/-- Ascending-by-date comparison used by
`assessments.sort((a, b) => a.assessmentDate.getTime() - b.assessmentDate.getTime())`. -/
def dateLe (a b : ErgonomicAssessment) : Prop := a.assessmentDate ≤ b.assessmentDate

instance : DecidableRel dateLe :=
  fun a b => inferInstanceAs (Decidable (a.assessmentDate ≤ b.assessmentDate))

instance : IsTotal ErgonomicAssessment dateLe := ⟨fun a b => le_total a.assessmentDate b.assessmentDate⟩

instance : IsTrans ErgonomicAssessment dateLe := ⟨fun _ _ _ hab hbc => le_trans hab hbc⟩

structure RiskTrend where
  trend : Trend
  changeRate : ℚ
  riskProgression : List (ℚ × ℚ)
deriving DecidableEq, Repr

/-- calculateRiskTrend from the risk-analysis utilities. -/
def calculateRiskTrend (assessments : List ErgonomicAssessment) : RiskTrend :=
  if assessments.length < 2 then
    { trend := Trend.stable
      changeRate := 0
      riskProgression := assessments.map (fun a => (a.assessmentDate, a.overallScore)) }
  else
    let sorted := List.insertionSort dateLe assessments
    let first := sorted.headD default
    let last := sorted.getLastD default
    let totalChange := last.overallScore - first.overallScore
    let timeSpan := (last.assessmentDate - first.assessmentDate) / (1000 * 60 * 60 * 24)
    let changeRate := if timeSpan > 0 then totalChange / timeSpan else 0
    let trend :=
      if |totalChange| < 5 then Trend.stable
      else if totalChange < 0 then Trend.improving
      else Trend.declining
    { trend := trend
      changeRate := |changeRate|
      riskProgression := sorted.map (fun a => (a.assessmentDate, a.overallScore)) }

/- ### Recommendations (recommendations module) -/

structure RiskAnalysis where
  assessmentId : String
  overallRisk : RiskLevel
  riskScore : ℚ
  factors : List RiskFactor
  priorityAreas : List String
  analysisDate : ℚ
deriving DecidableEq, Repr

/-- A recommendation as stored: in the source these fields are plain
strings coming either from template literals or from parsed JSON. -/
structure Recommendation where
  id : String
  category : String
  priority : String
  type : String
  title : String
  description : String
  actionSteps : List String
  expectedBenefit : String
  timeframe : String
  estimatedCost : String
  implementationDifficulty : String
deriving DecidableEq, Repr

/-- A recommendation object as it appears in a parsed generator response,
before an id is attached. -/
structure RecJson where
  category : String
  priority : String
  type : String
  title : String
  description : String
  actionSteps : List String
  expectedBenefit : String
  timeframe : String
  estimatedCost : String
  implementationDifficulty : String
deriving DecidableEq, Repr

structure RecommendationSet where
  assessmentId : String
  userId : String
  recommendations : List Recommendation
  generatedDate : ℤ
  aiGenerated : Bool
deriving DecidableEq, Repr

/-- The id attached to a recommendation:
`rec_` then `Date.now()` then the running index. -/
def mkRecId (now : ℤ) (k : ℕ) : String :=
  "rec_" ++ toString now ++ "_" ++ toString k

/-- Attach a generated id to a parsed recommendation
(the `{ id, ...rec }` spread). -/
def recJsonWithId (now : ℤ) (k : ℕ) (r : RecJson) : Recommendation :=
  { id := mkRecId now k
    category := r.category
    priority := r.priority
    type := r.type
    title := r.title
    description := r.description
    actionSteps := r.actionSteps
    expectedBenefit := r.expectedBenefit
    timeframe := r.timeframe
    estimatedCost := r.estimatedCost
    implementationDifficulty := r.implementationDifficulty }

/-- The id-independent content of a recommendation. -/
def recContent (r : Recommendation) : RecJson :=
  { category := r.category
    priority := r.priority
    type := r.type
    title := r.title
    description := r.description
    actionSteps := r.actionSteps
    expectedBenefit := r.expectedBenefit
    timeframe := r.timeframe
    estimatedCost := r.estimatedCost
    implementationDifficulty := r.implementationDifficulty }

/-- Modelled from the spec (section 3 Recommendation entity): exact-match
schema check on the enum-valued fields of a parsed recommendation.  The
source performs no such check; this definition exists to state that. -/
def specSchemaValid (r : RecJson) : Bool :=
  decide (r.category ∈ ["immediate", "short-term", "long-term"]) &&
  decide (r.priority ∈ ["low", "medium", "high", "critical"]) &&
  decide (r.type ∈ ["posture", "equipment", "movement", "environment", "behavior"]) &&
  decide (r.estimatedCost ∈ ["free", "low", "medium", "high"]) &&
  decide (r.implementationDifficulty ∈ ["easy", "medium", "hard"])

/-- Template pushed for a critical/high posture factor. -/
def postureTemplateContent : RecJson :=
  { category := "immediate"
    priority := "high"
    type := "posture"
    title := "Improve Posture Alignment"
    description := "Your current posture shows significant deviations that require immediate correction."
    actionSteps :=
      ["Adjust monitor height so top of screen is at or below eye level",
       "Position feet flat on floor or footrest",
       "Keep shoulders relaxed and elbows at 90-110 degrees",
       "Maintain neutral spine with lumbar support"]
    expectedBenefit := "Reduced neck, shoulder, and back strain within 1-2 weeks"
    timeframe := "Implement immediately, habit formation in 2-3 weeks"
    estimatedCost := "free"
    implementationDifficulty := "easy" }

/-- Template pushed for a critical/high movement factor. -/
def movementTemplateContent : RecJson :=
  { category := "immediate"
    priority := "high"
    type := "movement"
    title := "Increase Movement and Breaks"
    description := "Your current movement patterns are insufficient for long work periods."
    actionSteps :=
      ["Take a 1-2 minute break every 20-30 minutes",
       "Stand and walk for 5 minutes every hour",
       "Perform neck and shoulder stretches 3-5 times per day",
       "Change sitting position every 15-20 minutes"]
    expectedBenefit := "Improved circulation, reduced stiffness, increased energy"
    timeframe := "Start immediately, establish routine in 1 week"
    estimatedCost := "free"
    implementationDifficulty := "easy" }

/-- Template pushed for a critical/high equipment factor. -/
def equipmentTemplateContent : RecJson :=
  { category := "short-term"
    priority := "high"
    type := "equipment"
    title := "Workspace Equipment Optimization"
    description := "Current equipment setup contributes to ergonomic risks."
    actionSteps :=
      ["Adjust chair height for proper elbow angle",
       "Position keyboard and mouse at same level",
       "Use document holder to avoid neck strain",
       "Consider ergonomic accessories if needed"]
    expectedBenefit := "Better support and positioning, reduced strain"
    timeframe := "1-2 weeks for adjustments, 2-4 weeks for new equipment"
    estimatedCost := "low"
    implementationDifficulty := "medium" }

/-- Template pushed when screen breaks are below 2 per hour. -/
def ruleTwentyContent : RecJson :=
  { category := "immediate"
    priority := "medium"
    type := "behavior"
    title := "Implement 20-20-20 Rule"
    description := "Reduce eye strain and encourage regular movement breaks."
    actionSteps :=
      ["Every 20 minutes, look at something 20 feet away for 20 seconds",
       "Set up hourly reminders for movement breaks",
       "Use apps or timers to maintain consistency",
       "Blink consciously to prevent dry eyes"]
    expectedBenefit := "Reduced eye strain and fatigue, better focus"
    timeframe := "Start immediately, habit in 1-2 weeks"
    estimatedCost := "free"
    implementationDifficulty := "easy" }

/-- Template pushed when the workspace has no lumbar support. -/
def lumbarTemplateContent : RecJson :=
  { category := "short-term"
    priority := "medium"
    type := "equipment"
    title := "Add Lumbar Support"
    description := "Proper back support is essential for spinal health."
    actionSteps :=
      ["Adjust existing chair lumbar support if available",
       "Use a lumbar cushion or rolled towel as temporary solution",
       "Consider upgrading to ergonomic chair with proper lumbar support",
       "Position support at natural curve of lower back"]
    expectedBenefit := "Reduced lower back pain and improved posture"
    timeframe := "1-3 weeks"
    estimatedCost := "low"
    implementationDifficulty := "easy" }

/-- Template pushed when lighting quality is poor or fair. -/
def lightingTemplateContent : RecJson :=
  { category := "short-term"
    priority := "medium"
    type := "environment"
    title := "Improve Lighting Conditions"
    description := "Poor lighting contributes to eye strain and posture problems."
    actionSteps :=
      ["Position monitor perpendicular to windows to avoid glare",
       "Use adjustable task lighting for document work",
       "Adjust screen brightness to match surrounding lighting",
       "Consider anti-glare screen filter if needed"]
    expectedBenefit := "Reduced eye strain, less squinting and leaning"
    timeframe := "1-2 weeks"
    estimatedCost := "low"
    implementationDifficulty := "easy" }

/-- The criticalFactors.forEach loop: for each critical/high factor one
template recommendation by category (posture, movement, equipment), with
the running id counter. -/
def emitCriticalRecs (now : ℤ) : List RiskFactor → ℕ → List Recommendation
  | [], _ => []
  | f :: rest, k =>
    if f.category = Category.posture then
      recJsonWithId now k postureTemplateContent :: emitCriticalRecs now rest (k + 1)
    else if f.category = Category.movement then
      recJsonWithId now k movementTemplateContent :: emitCriticalRecs now rest (k + 1)
    else if f.category = Category.equipment then
      recJsonWithId now k equipmentTemplateContent :: emitCriticalRecs now rest (k + 1)
    else emitCriticalRecs now rest k

/-- The id-independent content of the per-factor template emission, used
to state that only the generated ids depend on the clock. -/
def contentCritical : List RiskFactor → List RecJson
  | [] => []
  | f :: rest =>
    if f.category = Category.posture then postureTemplateContent :: contentCritical rest
    else if f.category = Category.movement then movementTemplateContent :: contentCritical rest
    else if f.category = Category.equipment then equipmentTemplateContent :: contentCritical rest
    else contentCritical rest

/-- The full list generateTemplateRecommendations builds before the
`slice(0, 8)` truncation; the id counter always equals the number of
recommendations pushed so far. -/
def templateEmission (now : ℤ) (assessment : ErgonomicAssessment)
    (riskAnalysis : RiskAnalysis) : List Recommendation :=
  let criticalFactors :=
    riskAnalysis.factors.filter (fun f =>
      decide (f.severity = RiskLevel.critical) || decide (f.severity = RiskLevel.high))
  let step1 := emitCriticalRecs now criticalFactors 0
  let step2 :=
    if assessment.movementPatterns.screenBreakFrequency < 2 then
      step1 ++ [recJsonWithId now step1.length ruleTwentyContent]
    else step1
  let step3 :=
    if assessment.workspaceSetup.lumbarSupport then step2
    else step2 ++ [recJsonWithId now step2.length lumbarTemplateContent]
  let step4 :=
    if assessment.workspaceSetup.lightingQuality = LightingQuality.poor ∨
       assessment.workspaceSetup.lightingQuality = LightingQuality.fair then
      step3 ++ [recJsonWithId now step3.length lightingTemplateContent]
    else step3
  step4

/-- generateTemplateRecommendations: deterministic template fallback,
truncated to the first 8 recommendations. -/
def generateTemplateRecommendations (now : ℤ) (assessment : ErgonomicAssessment)
    (riskAnalysis : RiskAnalysis) (userProfile : UserProfile) : RecommendationSet :=
  { assessmentId := assessment.id
    userId := userProfile.id
    recommendations := (templateEmission now assessment riskAnalysis).take 8
    generatedDate := now
    aiGenerated := false }

/-- Outcome of the external generator call as seen by the code after the
fetch: every failure path it catches, or a parsed `recommendations`
array. -/
inductive AIOutcome
  | fetchError
  | httpNotOk (status : ℕ)
  | noContent
  | invalidJson
  | jsonWithoutRecsArray
  | jsonWithRecs (recs : List RecJson)
deriving DecidableEq, Repr

/-- generateAIRecommendations: the only inspection of a successfully
parsed payload is the map that attaches ids; every caught failure falls
back to generateTemplateRecommendations. -/
def generateAIRecommendations (outcome : AIOutcome) (now : ℤ)
    (assessment : ErgonomicAssessment) (riskAnalysis : RiskAnalysis)
    (userProfile : UserProfile) : RecommendationSet :=
  match outcome with
  | AIOutcome.jsonWithRecs recs =>
    { assessmentId := assessment.id
      userId := userProfile.id
      recommendations := recs.enum.map (fun p => recJsonWithId now p.1 p.2)
      generatedDate := now
      aiGenerated := true }
  | _ => generateTemplateRecommendations now assessment riskAnalysis userProfile

/- ### Concrete example data -/

/-- A posture with every block at its zero-risk value. -/
def neutralPosture : PostureData :=
  { neckAngle := 0, shoulderPosition := ShoulderPosition.relaxed
    backCurvature := BackCurvature.natural, elbowAngle := 100
    wristPosition := WristPosition.neutral, hipAngle := 100, kneeAngle := 100
    feetPosition := FeetPosition.flatFloor }

/-- A workspace with every block at its zero-risk value for a 160cm user. -/
def goodWorkspace : WorkspaceSetup :=
  { deskHeight := 72, chairHeight := 45, monitorDistance := 60, monitorHeight := 0
    keyboardPosition := KeyboardPosition.tray, mousePosition := KeyboardPosition.tray
    footSupport := true, lumbarSupport := true, armrestSupport := true
    lightingQuality := LightingQuality.excellent, noiseLevel := NoiseLevel.quiet }

/-- Movement patterns with every block at its zero-risk value. -/
def calmMovement : MovementPatterns :=
  { screenBreakFrequency := 2, stretchingFrequency := 3, walkingFrequency := 1
    postureChanges := 2
    repetitiveMotions := { typing := 200, mouseClicks := 50, reachingMovements := 10 } }

/-- Movement patterns whose only elevated reading is a typing rate of 500
keystrokes per minute, satisfying both typing band conditions. -/
def exMovement500 : MovementPatterns :=
  { screenBreakFrequency := 2, stretchingFrequency := 3, walkingFrequency := 1
    postureChanges := 2
    repetitiveMotions := { typing := 500, mouseClicks := 0, reachingMovements := 0 } }

def exUser : UserProfile :=
  { id := "user1", age := 30, height := 160, weight := 60, workHoursPerDay := 8 }

/-- A user working 12 hours per day; the only factor this produces is the
time factor. -/
def exUser12 : UserProfile :=
  { id := "user2", age := 30, height := 160, weight := 60, workHoursPerDay := 12 }

def exInputC10 : RiskCalculationInput :=
  { workspace := goodWorkspace, posture := neutralPosture, movement := calmMovement
    symptoms := [], userProfile := exUser12 }

/-- The time factor generateRiskFactors emits for exInputC10. -/
def exTimeFactor : RiskFactor :=
  { category := Category.time
    name := "Extended Work Hours"
    severity := RiskLevel.high
    score := 60
    description := "Working " ++ toString (12 : ℚ) ++ " hours per day exceeds recommendations"
    impact := "Prolonged exposure increases all ergonomic risks" }

/-- A critical posture discomfort factor, as generateRiskFactors names it. -/
def exDiscomfortFactor : RiskFactor :=
  { category := Category.posture
    name := "Existing Discomfort/Pain"
    severity := RiskLevel.critical
    score := 80
    description := "Reported symptoms indicate current ergonomic issues"
    impact := "Existing symptoms may worsen without intervention" }

def exAssessment : ErgonomicAssessment := { (default : ErgonomicAssessment) with id := "a1" }

def exRiskAnalysis : RiskAnalysis :=
  { assessmentId := "a1", overallRisk := RiskLevel.low, riskScore := 0
    factors := [], priorityAreas := [], analysisDate := 0 }

/-- A parsed recommendation whose category is outside the schema enums. -/
def badRec : RecJson :=
  { category := "bogus"
    priority := "high"
    type := "posture"
    title := "Some title"
    description := "Some description"
    actionSteps := []
    expectedBenefit := "Some benefit"
    timeframe := "Some timeframe"
    estimatedCost := "free"
    implementationDifficulty := "easy" }

/-- Assessment with score 80 at epoch time 0. -/
def trendExA : ErgonomicAssessment :=
  { (default : ErgonomicAssessment) with id := "t1", assessmentDate := 0, overallScore := 80 }

/-- Assessment with score 60 two days later. -/
def trendExB : ErgonomicAssessment :=
  { (default : ErgonomicAssessment) with id := "t2", assessmentDate := 172800000, overallScore := 60 }

/- ### Helper lemmas -/

theorem jsRound_eq_of (x : ℚ) (n : ℤ) (h1 : (n : ℚ) ≤ x + 1/2) (h2 : x + 1/2 < n + 1) :
    jsRound x = n := by
  unfold jsRound
  exact Int.floor_eq_iff.mpr ⟨by exact_mod_cast h1, by exact_mod_cast h2⟩

theorem jsRound_nonneg (x : ℚ) (hx : 0 ≤ x) : 0 ≤ jsRound x := by
  unfold jsRound
  exact Int.floor_nonneg.mpr (by linarith)

/-- The typing band chain can only ever produce its first-match value. -/
theorem typingRisk_eq (t : ℚ) : typingRisk t = if t > 300 then 10 else 0 := by
  unfold typingRisk
  split_ifs with h1 h2 <;> first | rfl | linarith

/-- The mouse-click band chain can only ever produce its first-match value. -/
theorem mouseClickRisk_eq (c : ℚ) : mouseClickRisk c = if c > 100 then 8 else 0 := by
  unfold mouseClickRisk
  split_ifs with h1 h2 <;> first | rfl | linarith

/-- The reaching band chain can only ever produce its first-match value. -/
theorem reachingRisk_eq (r : ℚ) : reachingRisk r = if r > 20 then 10 else 0 := by
  unfold reachingRisk
  split_ifs with h1 h2 <;> first | rfl | linarith

/- ### C1 -/

/-- C1: the claim predicts that with typing = 500 both typing bands add
(10 + 15 = 25 from typing alone, so total 25 with every other block
zero); the else-if chain in the source yields 10 instead. -/
theorem C1_counterexample :
    calculateMovementRisk exMovement500 = 10 ∧ calculateMovementRisk exMovement500 ≠ 25 := by
  have h : calculateMovementRisk exMovement500 = 10 := by
    norm_num [calculateMovementRisk, exMovement500, breakRisk, stretchRisk, walkRisk,
      postureChangeRisk, typingRisk, mouseClickRisk, reachingRisk, inf_eq_min, min_def]
  exact ⟨h, by rw [h]; norm_num⟩

/-- C1 (amended): the repetitive-motion bands are exclusive first-match
else-if chains tested with the lower threshold first, so the higher band
(+15 typing, +12 clicks, +15 reaching) never fires: each group
contributes exactly its first-band penalty, and never more than 10, 8
and 10 respectively. -/
theorem C1_amended_theorem : ∀ m : MovementPatterns,
    calculateMovementRisk m =
      min 100 (breakRisk m.screenBreakFrequency + stretchRisk m.stretchingFrequency +
        walkRisk m.walkingFrequency + postureChangeRisk m.postureChanges +
        (if m.repetitiveMotions.typing > 300 then 10 else 0) +
        (if m.repetitiveMotions.mouseClicks > 100 then 8 else 0) +
        (if m.repetitiveMotions.reachingMovements > 20 then 10 else 0)) ∧
    typingRisk m.repetitiveMotions.typing ≤ 10 ∧
    mouseClickRisk m.repetitiveMotions.mouseClicks ≤ 8 ∧
    reachingRisk m.repetitiveMotions.reachingMovements ≤ 10 := by
  intro m
  refine ⟨?_, ?_, ?_, ?_⟩
  · unfold calculateMovementRisk
    rw [typingRisk_eq, mouseClickRisk_eq, reachingRisk_eq]
  · rw [typingRisk_eq]; split_ifs <;> norm_num
  · rw [mouseClickRisk_eq]; split_ifs <;> norm_num
  · rw [reachingRisk_eq]; split_ifs <;> norm_num

/- ### C3 -/

/-- C3: at previousScore = 100, currentScore = 50, the signed rounded
percentage is -50, but calculateImprovement returns its absolute value
50, contradicting the claimed sign convention. -/
theorem C3_counterexample :
    (calculateImprovement 100 50).percentage = 50 ∧
    jsRound (((50 : ℚ) - 100) / 100 * 100) = -50 ∧
    ((calculateImprovement 100 50).percentage : ℤ) ≠
      jsRound (((50 : ℚ) - 100) / 100 * 100) := by
  have h : jsRound (((50 : ℚ) - 100) / 100 * 100) = -50 :=
    jsRound_eq_of _ _ (by norm_num) (by norm_num)
  have hp : (calculateImprovement 100 50).percentage = 50 := by
    simp only [calculateImprovement]
    rw [if_pos (by norm_num : (100 : ℚ) > 0), h]
    decide
  exact ⟨hp, h, by rw [hp, h]; decide⟩

/-- C3 (amended): for previousScore > 0 the returned percentage is the
absolute value of the signed rounded percentage-of-baseline, and the
trend is determined by the signed value: stable iff it is within ±5,
improving iff it is at most -5, declining iff it is at least 5. -/
theorem C3_amended_theorem : ∀ previousScore currentScore : ℚ, 0 < previousScore →
    (calculateImprovement previousScore currentScore).percentage =
      |jsRound ((currentScore - previousScore) / previousScore * 100)| ∧
    ((calculateImprovement previousScore currentScore).trend = Trend.stable ↔
      |jsRound ((currentScore - previousScore) / previousScore * 100)| < 5) ∧
    ((calculateImprovement previousScore currentScore).trend = Trend.improving ↔
      jsRound ((currentScore - previousScore) / previousScore * 100) ≤ -5) ∧
    ((calculateImprovement previousScore currentScore).trend = Trend.declining ↔
      5 ≤ jsRound ((currentScore - previousScore) / previousScore * 100)) := by
  intro p c hp
  simp only [calculateImprovement]
  rw [if_pos (by exact hp : p > 0)]
  set k := jsRound ((c - p) / p * 100) with hk
  have habs : |k| < 5 ↔ -5 < k ∧ k < 5 := abs_lt
  refine ⟨rfl, ?_, ?_, ?_⟩
  · split_ifs with h1 h2 <;> simp_all
  · split_ifs with h1 h2 <;> simp_all <;> omega
  · split_ifs with h1 h2 <;> simp_all <;> omega

/-- Witness for C3: concrete drop from 100 to 50. -/
theorem C3_amended_witness :
    (0 : ℚ) < 100 ∧ (calculateImprovement 100 50).percentage = 50 ∧
    (calculateImprovement 100 50).trend = Trend.improving := by
  have h := C3_amended_theorem 100 50 (by norm_num)
  have hk : jsRound (((50 : ℚ) - 100) / 100 * 100) = -50 :=
    jsRound_eq_of _ _ (by norm_num) (by norm_num)
  refine ⟨by norm_num, ?_, h.2.2.1.mpr (by rw [hk]; decide)⟩
  rw [h.1, hk]
  decide

/- ### C6 -/

/-- C6: getRiskLevel is monotone under the rank order
low < moderate < high < critical and realises the half-open bands
[0,25) low, [25,50) moderate, [50,75) high, [75,∞) critical, with the
claimed boundary values. -/
theorem C6_theorem :
    (∀ s t : ℚ, s ≤ t → riskLevelRank (getRiskLevel s) ≤ riskLevelRank (getRiskLevel t)) ∧
    (∀ s : ℚ,
      (s < 25 → getRiskLevel s = RiskLevel.low) ∧
      (25 ≤ s ∧ s < 50 → getRiskLevel s = RiskLevel.moderate) ∧
      (50 ≤ s ∧ s < 75 → getRiskLevel s = RiskLevel.high) ∧
      (75 ≤ s → getRiskLevel s = RiskLevel.critical)) ∧
    getRiskLevel 24 = RiskLevel.low ∧ getRiskLevel 25 = RiskLevel.moderate ∧
    getRiskLevel 49 = RiskLevel.moderate ∧ getRiskLevel 50 = RiskLevel.high ∧
    getRiskLevel 74 = RiskLevel.high ∧ getRiskLevel 75 = RiskLevel.critical := by
  refine ⟨?_, ?_, ?_, ?_, ?_, ?_, ?_, ?_⟩
  · intro s t hst
    unfold getRiskLevel
    split_ifs <;> simp [riskLevelRank] <;> linarith
  · intro s
    refine ⟨fun h => ?_, fun h => ?_, fun h => ?_, fun h => ?_⟩ <;>
      unfold getRiskLevel <;>
      split_ifs <;> first | rfl | (exfalso; cases h; linarith) | (exfalso; linarith)
  all_goals norm_num [getRiskLevel]

/-- Witness for C6: monotonicity at 10 ≤ 60 and the moderate band at 30. -/
theorem C6_witness :
    (10 : ℚ) ≤ 60 ∧ riskLevelRank (getRiskLevel 10) ≤ riskLevelRank (getRiskLevel 60) ∧
    (25 ≤ (30 : ℚ) ∧ (30 : ℚ) < 50) ∧ getRiskLevel 30 = RiskLevel.moderate :=
  ⟨by norm_num, C6_theorem.1 10 60 (by norm_num), ⟨by norm_num, by norm_num⟩,
   ((C6_theorem.2.1 30).2.1 ⟨by norm_num, by norm_num⟩)⟩

/- ### C5: score bounds -/

theorem neckRisk_nonneg (x : ℚ) : 0 ≤ neckRisk x := by
  unfold neckRisk; split_ifs <;> norm_num

theorem shoulderRisk_nonneg (p : ShoulderPosition) : 0 ≤ shoulderRisk p := by
  cases p <;> norm_num [shoulderRisk]

theorem backRisk_nonneg (p : BackCurvature) : 0 ≤ backRisk p := by
  cases p <;> norm_num [backRisk]

theorem elbowRisk_nonneg (x : ℚ) : 0 ≤ elbowRisk x := by
  unfold elbowRisk; split_ifs <;> norm_num

theorem wristRisk_nonneg (p : WristPosition) : 0 ≤ wristRisk p := by
  cases p <;> norm_num [wristRisk]

theorem hipRisk_nonneg (x : ℚ) : 0 ≤ hipRisk x := by
  unfold hipRisk; split_ifs <;> norm_num

theorem feetRisk_nonneg (p : FeetPosition) : 0 ≤ feetRisk p := by
  cases p <;> norm_num [feetRisk]

theorem ageMultiplier_nonneg (x : ℚ) : 0 ≤ ageMultiplier x := by
  unfold ageMultiplier; split_ifs <;> norm_num

theorem hoursMultiplier_nonneg (x : ℚ) : 0 ≤ hoursMultiplier x := by
  unfold hoursMultiplier; split_ifs <;> norm_num

theorem calculatePostureRisk_mem (p : PostureData) (u : UserProfile) :
    0 ≤ calculatePostureRisk p u ∧ calculatePostureRisk p u ≤ 100 := by
  unfold calculatePostureRisk
  refine ⟨le_min (by norm_num) ?_, min_le_left _ _⟩
  have h := neckRisk_nonneg p.neckAngle
  have h2 := shoulderRisk_nonneg p.shoulderPosition
  have h3 := backRisk_nonneg p.backCurvature
  have h4 := elbowRisk_nonneg p.elbowAngle
  have h5 := wristRisk_nonneg p.wristPosition
  have h6 := hipRisk_nonneg p.hipAngle
  have h7 := feetRisk_nonneg p.feetPosition
  have h8 := ageMultiplier_nonneg u.age
  have h9 := hoursMultiplier_nonneg u.workHoursPerDay
  apply mul_nonneg (mul_nonneg (by linarith) h8) h9

theorem deskRisk_nonneg (d h : ℚ) : 0 ≤ deskRisk d h := by
  unfold deskRisk; split_ifs <;> norm_num

theorem monitorDistanceRisk_nonneg (d : ℚ) : 0 ≤ monitorDistanceRisk d := by
  unfold monitorDistanceRisk; split_ifs <;> norm_num

theorem monitorHeightRisk_nonneg (h : ℚ) : 0 ≤ monitorHeightRisk h := by
  unfold monitorHeightRisk; split_ifs <;> norm_num

theorem lightingRisk_nonneg (q : LightingQuality) : 0 ≤ lightingRisk q := by
  cases q <;> norm_num [lightingRisk]

theorem noiseRisk_nonneg (n : NoiseLevel) : 0 ≤ noiseRisk n := by
  cases n <;> norm_num [noiseRisk]

theorem calculateWorkspaceRisk_mem (w : WorkspaceSetup) (u : UserProfile) :
    0 ≤ calculateWorkspaceRisk w u ∧ calculateWorkspaceRisk w u ≤ 100 := by
  unfold calculateWorkspaceRisk
  refine ⟨le_min (by norm_num) ?_, min_le_left _ _⟩
  have h1 := deskRisk_nonneg w.deskHeight u.height
  have h2 := monitorDistanceRisk_nonneg w.monitorDistance
  have h3 := monitorHeightRisk_nonneg w.monitorHeight
  have h4 := lightingRisk_nonneg w.lightingQuality
  have h5 := noiseRisk_nonneg w.noiseLevel
  have h6 : (0 : ℚ) ≤ if w.keyboardPosition = KeyboardPosition.desktop then 8 else 0 := by
    split_ifs <;> norm_num
  have h7 : (0 : ℚ) ≤ if w.mousePosition = KeyboardPosition.desktop then 6 else 0 := by
    split_ifs <;> norm_num
  have h8 : (0 : ℚ) ≤ if w.footSupport then 0 else 8 := by split_ifs <;> norm_num
  have h9 : (0 : ℚ) ≤ if w.lumbarSupport then 0 else 15 := by split_ifs <;> norm_num
  have h10 : (0 : ℚ) ≤ if w.armrestSupport then 0 else 10 := by split_ifs <;> norm_num
  linarith

theorem breakRisk_nonneg (x : ℚ) : 0 ≤ breakRisk x := by
  unfold breakRisk; split_ifs <;> norm_num

theorem stretchRisk_nonneg (x : ℚ) : 0 ≤ stretchRisk x := by
  unfold stretchRisk; split_ifs <;> norm_num

theorem walkRisk_nonneg (x : ℚ) : 0 ≤ walkRisk x := by
  unfold walkRisk; split_ifs <;> norm_num

theorem postureChangeRisk_nonneg (x : ℚ) : 0 ≤ postureChangeRisk x := by
  unfold postureChangeRisk; split_ifs <;> norm_num

theorem typingRisk_nonneg (x : ℚ) : 0 ≤ typingRisk x := by
  unfold typingRisk; split_ifs <;> norm_num

theorem mouseClickRisk_nonneg (x : ℚ) : 0 ≤ mouseClickRisk x := by
  unfold mouseClickRisk; split_ifs <;> norm_num

theorem reachingRisk_nonneg (x : ℚ) : 0 ≤ reachingRisk x := by
  unfold reachingRisk; split_ifs <;> norm_num

theorem calculateMovementRisk_mem (m : MovementPatterns) :
    0 ≤ calculateMovementRisk m ∧ calculateMovementRisk m ≤ 100 := by
  unfold calculateMovementRisk
  refine ⟨le_min (by norm_num) ?_, min_le_left _ _⟩
  have h1 := breakRisk_nonneg m.screenBreakFrequency
  have h2 := stretchRisk_nonneg m.stretchingFrequency
  have h3 := walkRisk_nonneg m.walkingFrequency
  have h4 := postureChangeRisk_nonneg m.postureChanges
  have h5 := typingRisk_nonneg m.repetitiveMotions.typing
  have h6 := mouseClickRisk_nonneg m.repetitiveMotions.mouseClicks
  have h7 := reachingRisk_nonneg m.repetitiveMotions.reachingMovements
  linarith

theorem severityScore_nonneg (s : Severity) : 0 ≤ severityScore s := by
  cases s <;> norm_num [severityScore]

theorem frequencyScore_nonneg (f : Frequency) : 0 ≤ frequencyScore f := by
  cases f <;> norm_num [frequencyScore]

theorem calculateSymptomsRisk_mem (s : List HealthSymptom) :
    0 ≤ calculateSymptomsRisk s ∧ calculateSymptomsRisk s ≤ 100 := by
  unfold calculateSymptomsRisk
  split_ifs with h
  · norm_num
  refine ⟨le_min (by norm_num) ?_, min_le_left _ _⟩
  have hbase : (0 : ℚ) ≤ (s.map (fun x => 5 + if criticalArea x.type then (5 : ℚ) else 0)).sum := by
    apply List.sum_nonneg
    intro x hx
    simp only [List.mem_map] at hx
    obtain ⟨y, _, rfl⟩ := hx
    split_ifs <;> norm_num
  have hsev : (0 : ℚ) ≤ (s.map (fun x => severityScore x.severity)).sum := by
    apply List.sum_nonneg
    intro x hx
    simp only [List.mem_map] at hx
    obtain ⟨y, _, rfl⟩ := hx
    exact severityScore_nonneg _
  have hfreq : (0 : ℚ) ≤ (s.map (fun x => frequencyScore x.frequency)).sum := by
    apply List.sum_nonneg
    intro x hx
    simp only [List.mem_map] at hx
    obtain ⟨y, _, rfl⟩ := hx
    exact frequencyScore_nonneg _
  have hlen : (0 : ℚ) ≤ (s.length : ℚ) := by positivity
  have havgS : (0 : ℚ) ≤ (s.map (fun x => severityScore x.severity)).sum / (s.length : ℚ) :=
    div_nonneg hsev hlen
  have havgF : (0 : ℚ) ≤ (s.map (fun x => frequencyScore x.frequency)).sum / (s.length : ℚ) :=
    div_nonneg hfreq hlen
  have : (0 : ℤ) ≤ jsRound
      ((s.map (fun x => 5 + if criticalArea x.type then (5 : ℚ) else 0)).sum *
        ((1 + (s.map (fun x => severityScore x.severity)).sum / (s.length : ℚ) * 0.5) *
          (1 + (s.map (fun x => frequencyScore x.frequency)).sum / (s.length : ℚ) * 0.3))) := by
    apply jsRound_nonneg
    apply mul_nonneg hbase
    apply mul_nonneg <;> nlinarith
  exact_mod_cast this

/-- C5: every component score and the overall score lies in [0, 100]. -/
theorem C5_theorem : ∀ (p : PostureData) (u : UserProfile) (w : WorkspaceSetup)
    (m : MovementPatterns) (s : List HealthSymptom) (input : RiskCalculationInput),
    (0 ≤ calculatePostureRisk p u ∧ calculatePostureRisk p u ≤ 100) ∧
    (0 ≤ calculateWorkspaceRisk w u ∧ calculateWorkspaceRisk w u ≤ 100) ∧
    (0 ≤ calculateMovementRisk m ∧ calculateMovementRisk m ≤ 100) ∧
    (0 ≤ calculateSymptomsRisk s ∧ calculateSymptomsRisk s ≤ 100) ∧
    (0 ≤ calculateOverallRiskScore input ∧ calculateOverallRiskScore input ≤ 100) := by
  intro p u w m s input
  refine ⟨calculatePostureRisk_mem p u, calculateWorkspaceRisk_mem w u,
    calculateMovementRisk_mem m, calculateSymptomsRisk_mem s, ?_, ?_⟩
  · unfold calculateOverallRiskScore
    exact le_min (by norm_num) (le_max_left 0 _)
  · unfold calculateOverallRiskScore
    exact min_le_left _ _

/- ### C4: sortedness and stability -/

theorem filter_orderedInsert_score (s : ℚ) (x : RiskFactor) (l : List RiskFactor) :
    List.filter (fun f => decide (f.score = s)) (List.orderedInsert factorGE x l) =
      if x.score = s then x :: List.filter (fun f => decide (f.score = s)) l
      else List.filter (fun f => decide (f.score = s)) l := by
  induction l with
  | nil =>
    simp only [List.orderedInsert, List.filter_cons, List.filter_nil]
    by_cases h : x.score = s <;> simp [h]
  | cons b t ih =>
    simp only [List.orderedInsert]
    by_cases hxb : factorGE x b
    · rw [if_pos hxb]
      by_cases h : x.score = s <;> simp [List.filter_cons, h]
    · rw [if_neg hxb]
      by_cases h : x.score = s
      · have hb : ¬(b.score = s) := by
          intro hbs
          exact hxb (le_of_eq (hbs.trans h.symm))
        simp [List.filter_cons, hb, ih, h]
      · by_cases hb : b.score = s <;> simp [List.filter_cons, hb, ih, h]

theorem filter_insertionSort_score (s : ℚ) (l : List RiskFactor) :
    List.filter (fun f => decide (f.score = s)) (List.insertionSort factorGE l) =
      List.filter (fun f => decide (f.score = s)) l := by
  induction l with
  | nil => rfl
  | cons a t ih =>
    simp only [List.insertionSort]
    rw [filter_orderedInsert_score]
    by_cases h : a.score = s <;> simp [List.filter_cons, h, ih]

/-- C4: the factor list is sorted descending by score, and restricting
both the output and the emission-order list to any fixed score value
gives the same sequence, so equal-score factors keep their original
insertion order. -/
theorem C4_theorem : ∀ input : RiskCalculationInput,
    List.Sorted factorGE (generateRiskFactors input) ∧
    ∀ s : ℚ, List.filter (fun f => decide (f.score = s)) (generateRiskFactors input) =
      List.filter (fun f => decide (f.score = s)) (emittedFactors input) :=
  fun input =>
    ⟨List.sorted_insertionSort factorGE (emittedFactors input),
     fun s => filter_insertionSort_score s (emittedFactors input)⟩

/- ### C7: risk trend -/

/-- C7: fewer than 2 assessments give a stable trend with change rate 0;
for a date-sorted list of 2 or more, the trend bands on the last-minus-
first score difference and the change rate is its absolute value per
elapsed day (0 when no time elapsed). -/
theorem C7_theorem :
    (∀ l : List ErgonomicAssessment, l.length < 2 →
      (calculateRiskTrend l).trend = Trend.stable ∧ (calculateRiskTrend l).changeRate = 0) ∧
    (∀ (l : List ErgonomicAssessment) (hne : l ≠ []), 2 ≤ l.length → List.Sorted dateLe l →
      (calculateRiskTrend l).trend =
        (if |(l.getLast hne).overallScore - (l.head hne).overallScore| < 5 then Trend.stable
         else if (l.getLast hne).overallScore - (l.head hne).overallScore < 0 then Trend.improving
         else Trend.declining) ∧
      (calculateRiskTrend l).changeRate =
        (if 0 < ((l.getLast hne).assessmentDate - (l.head hne).assessmentDate) / 86400000 then
           |(l.getLast hne).overallScore - (l.head hne).overallScore| /
             (((l.getLast hne).assessmentDate - (l.head hne).assessmentDate) / 86400000)
         else 0)) := by
  constructor
  · intro l h
    simp only [calculateRiskTrend]
    rw [if_pos h]
    exact ⟨rfl, rfl⟩
  · intro l hne hlen hs
    have hsort : List.insertionSort dateLe l = l := hs.insertionSort_eq
    have hhead : (List.insertionSort dateLe l).headD default = l.head hne := by
      rw [hsort]
      cases l with
      | nil => exact absurd rfl hne
      | cons a t => rfl
    have hlast : (List.insertionSort dateLe l).getLastD default = l.getLast hne := by
      rw [hsort, List.getLastD_eq_getLast?, List.getLast?_eq_getLast l hne, Option.getD_some]
    have h24 : (1000 * 60 * 60 * 24 : ℚ) = 86400000 := by norm_num
    simp only [calculateRiskTrend]
    rw [if_neg (by omega)]
    rw [hhead, hlast, h24]
    refine ⟨rfl, ?_⟩
    show |if ((l.getLast hne).assessmentDate - (l.head hne).assessmentDate) / 86400000 > 0 then
          ((l.getLast hne).overallScore - (l.head hne).overallScore) /
            (((l.getLast hne).assessmentDate - (l.head hne).assessmentDate) / 86400000)
        else 0| = _
    split_ifs with ht
    · rw [abs_div, abs_of_pos ht]
    · simp

/-- Witness for C7: scores 80 then 60 two days apart give an improving
trend at 10 points per day; a single assessment is stable with rate 0. -/
theorem C7_witness :
    (calculateRiskTrend [trendExA, trendExB]).trend = Trend.improving ∧
    (calculateRiskTrend [trendExA, trendExB]).changeRate = 10 ∧
    (calculateRiskTrend [trendExA]).trend = Trend.stable ∧
    (calculateRiskTrend [trendExA]).changeRate = 0 := by
  have h1 := C7_theorem.1 [trendExA] (by norm_num)
  have h2 := C7_theorem.2 [trendExA, trendExB] (by simp) (by norm_num)
    (by simp [List.sorted_cons, dateLe, trendExA, trendExB])
  rw [List.getLast, List.head] at h2
  refine ⟨?_, ?_, h1.1, h1.2⟩
  · rw [h2.1]
    norm_num [trendExA, trendExB]
  · rw [h2.2]
    norm_num [trendExA, trendExB]

/- ### C8: priority areas -/

/-- C8: the priority-area list has at most 5 entries, and a critical
posture factor whose name marks existing discomfort puts the urgent
pain sentence first. -/
theorem C8_theorem : ∀ factors : List RiskFactor,
    (identifyPriorityAreas factors).length ≤ 5 ∧
    (∀ f, f ∈ factors → f.category = Category.posture →
      strIncludes f.name "Discomfort" = true → f.severity = RiskLevel.critical →
      (identifyPriorityAreas factors).head? =
        some "Address existing pain and discomfort immediately") := by
  intro factors
  constructor
  · simp only [identifyPriorityAreas]
    exact List.length_take_le _ _
  · intro f hf hcat hname hsev
    simp only [identifyPriorityAreas]
    have hmem : f ∈ factors.filter (fun g =>
        decide (g.category = Category.posture) && strIncludes g.name "Discomfort" &&
        decide (g.severity = RiskLevel.critical)) := by
      rw [List.mem_filter]
      refine ⟨hf, ?_⟩
      simp [hcat, hname, hsev]
    have hlen : 0 < (factors.filter (fun g =>
        decide (g.category = Category.posture) && strIncludes g.name "Discomfort" &&
        decide (g.severity = RiskLevel.critical))).length :=
      List.length_pos.mpr (List.ne_nil_of_mem hmem)
    rw [if_pos hlen]
    rfl

/-- Witness for C8: a single critical discomfort posture factor. -/
theorem C8_witness :
    exDiscomfortFactor ∈ [exDiscomfortFactor] ∧
    exDiscomfortFactor.category = Category.posture ∧
    strIncludes exDiscomfortFactor.name "Discomfort" = true ∧
    exDiscomfortFactor.severity = RiskLevel.critical ∧
    (identifyPriorityAreas [exDiscomfortFactor]).head? =
      some "Address existing pain and discomfort immediately" ∧
    (identifyPriorityAreas [exDiscomfortFactor]).length ≤ 5 :=
  ⟨List.mem_singleton.mpr rfl, rfl, by decide, rfl,
   (C8_theorem [exDiscomfortFactor]).2 exDiscomfortFactor
     (List.mem_singleton.mpr rfl) rfl (by decide) rfl,
   (C8_theorem [exDiscomfortFactor]).1⟩

/- ### C9: deterministic template fallback -/

theorem recContent_recJsonWithId (now : ℤ) (k : ℕ) (r : RecJson) :
    recContent (recJsonWithId now k r) = r := rfl

theorem emitCriticalRecs_content (l : List RiskFactor) :
    ∀ (now : ℤ) (k : ℕ), (emitCriticalRecs now l k).map recContent = contentCritical l := by
  induction l with
  | nil => intro _ _; rfl
  | cons f rest ih =>
    intro now k
    simp only [emitCriticalRecs, contentCritical]
    split_ifs <;> simp [recContent_recJsonWithId, ih]

theorem templateEmission_map_content (now now2 : ℤ) (a : ErgonomicAssessment)
    (r : RiskAnalysis) :
    (templateEmission now a r).map recContent = (templateEmission now2 a r).map recContent := by
  simp only [templateEmission]
  by_cases s1 : a.movementPatterns.screenBreakFrequency < 2 <;>
    by_cases s2 : a.workspaceSetup.lumbarSupport = true <;>
    by_cases s3 : a.workspaceSetup.lightingQuality = LightingQuality.poor ∨
      a.workspaceSetup.lightingQuality = LightingQuality.fair <;>
    simp [s1, s2, s3, List.map_append, emitCriticalRecs_content, recContent_recJsonWithId]

/-- C9: the template fallback is deterministic up to the generated ids
(and the generatedDate field on the set), returns at most 8
recommendations, and truncates keeping the earliest-emitted entries. -/
theorem C9_theorem : ∀ (now now2 : ℤ) (a : ErgonomicAssessment) (r : RiskAnalysis)
    (u : UserProfile),
    (generateTemplateRecommendations now a r u).recommendations.map recContent =
      (generateTemplateRecommendations now2 a r u).recommendations.map recContent ∧
    (generateTemplateRecommendations now a r u).assessmentId =
      (generateTemplateRecommendations now2 a r u).assessmentId ∧
    (generateTemplateRecommendations now a r u).userId =
      (generateTemplateRecommendations now2 a r u).userId ∧
    (generateTemplateRecommendations now a r u).aiGenerated = false ∧
    (generateTemplateRecommendations now a r u).recommendations.length ≤ 8 ∧
    ∃ rest, templateEmission now a r =
      (generateTemplateRecommendations now a r u).recommendations ++ rest := by
  intro now now2 a r u
  refine ⟨?_, rfl, rfl, rfl, ?_, ?_⟩
  · show ((templateEmission now a r).take 8).map recContent =
      ((templateEmission now2 a r).take 8).map recContent
    rw [List.map_take, List.map_take, templateEmission_map_content now now2 a r]
  · exact List.length_take_le _ _
  · exact ⟨(templateEmission now a r).drop 8, (List.take_append_drop 8 _).symm⟩

/- ### C2: no schema validation on the generator response -/

/-- C2: a parsed response whose category is outside the schema enums is
not treated as a failure: the result is marked aiGenerated, differs from
the template fallback, and carries the mismatched recommendation
verbatim. -/
theorem C2_counterexample :
    specSchemaValid badRec = false ∧
    (generateAIRecommendations (AIOutcome.jsonWithRecs [badRec]) 0 exAssessment
      exRiskAnalysis exUser).aiGenerated = true ∧
    (generateAIRecommendations (AIOutcome.jsonWithRecs [badRec]) 0 exAssessment
      exRiskAnalysis exUser).recommendations.map recContent = [badRec] ∧
    generateAIRecommendations (AIOutcome.jsonWithRecs [badRec]) 0 exAssessment
      exRiskAnalysis exUser ≠
      generateTemplateRecommendations 0 exAssessment exRiskAnalysis exUser := by
  refine ⟨by decide, rfl, rfl, ?_⟩
  intro h
  have hai := congrArg RecommendationSet.aiGenerated h
  simp [generateAIRecommendations, generateTemplateRecommendations] at hai

/-- C2 (amended): the fallback fires exactly on the caught failures
(fetch error, non-ok status, missing content, unparseable JSON, missing
recommendations array); a parsed recommendations array is accepted
verbatim with generated ids and no schema validation. -/
theorem C2_amended_theorem : ∀ (o : AIOutcome) (now : ℤ) (a : ErgonomicAssessment)
    (r : RiskAnalysis) (u : UserProfile),
    ((∀ recs, o ≠ AIOutcome.jsonWithRecs recs) →
      generateAIRecommendations o now a r u =
        generateTemplateRecommendations now a r u) ∧
    (∀ recs,
      (generateAIRecommendations (AIOutcome.jsonWithRecs recs) now a r u).aiGenerated = true ∧
      (generateAIRecommendations (AIOutcome.jsonWithRecs recs) now a r u).recommendations.map
        recContent = recs) := by
  intro o now a r u
  constructor
  · intro h
    cases o with
    | fetchError => rfl
    | httpNotOk status => rfl
    | noContent => rfl
    | invalidJson => rfl
    | jsonWithoutRecsArray => rfl
    | jsonWithRecs recs => exact absurd rfl (h recs)
  · intro recs
    refine ⟨rfl, ?_⟩
    show (recs.enum.map (fun p => recJsonWithId now p.1 p.2)).map recContent = recs
    rw [List.map_map]
    have hc : (recContent ∘ fun p : ℕ × RecJson => recJsonWithId now p.1 p.2) = Prod.snd :=
      funext fun p => rfl
    rw [hc, List.enum_map_snd]

/-- Witness for C2: a fetch error falls back to the template result. -/
theorem C2_amended_witness :
    generateAIRecommendations AIOutcome.fetchError 0 exAssessment exRiskAnalysis exUser =
      generateTemplateRecommendations 0 exAssessment exRiskAnalysis exUser :=
  (C2_amended_theorem AIOutcome.fetchError 0 exAssessment exRiskAnalysis exUser).1
    (fun _ h => AIOutcome.noConfusion h)

/- ### C10: no environment factors from the aggregator -/

theorem mem_ite_singleton {α : Type} {c : Prop} [Decidable c] {a x : α} :
    a ∈ (if c then [x] else []) ↔ c ∧ a = x := by
  split_ifs with h <;> simp [h]

theorem emittedFactors_no_env (input : RiskCalculationInput) :
    ∀ f, f ∈ emittedFactors input → f.category ≠ Category.environment := by
  intro f hf
  simp only [emittedFactors, List.mem_append, mem_ite_singleton] at hf
  rcases hf with ((((⟨_, rfl⟩ | ⟨_, rfl⟩) | ⟨_, rfl⟩) | ⟨_, rfl⟩) | ⟨_, rfl⟩) <;> simp

theorem env_advisory_requires_env_factor (factors : List RiskFactor) :
    "Optimize environmental conditions" ∈ identifyPriorityAreas factors →
    ∃ f, f ∈ factors ∧ f.category = Category.environment := by
  intro h
  simp only [identifyPriorityAreas] at h
  have h2 := List.mem_of_mem_take h
  have h3 : "Optimize environmental conditions" ∈
      (if Category.posture ∈ ((List.insertionSort factorGE (factors.filter (fun f =>
          decide (f.severity = RiskLevel.critical) ||
          decide (f.severity = RiskLevel.high)))).take 3).map RiskFactor.category then
        ["Improve posture alignment and body positioning"] else []) ++
      (if Category.equipment ∈ ((List.insertionSort factorGE (factors.filter (fun f =>
          decide (f.severity = RiskLevel.critical) ||
          decide (f.severity = RiskLevel.high)))).take 3).map RiskFactor.category then
        ["Upgrade workspace equipment and setup"] else []) ++
      (if Category.movement ∈ ((List.insertionSort factorGE (factors.filter (fun f =>
          decide (f.severity = RiskLevel.critical) ||
          decide (f.severity = RiskLevel.high)))).take 3).map RiskFactor.category then
        ["Increase movement and break frequency"] else []) ++
      (if Category.environment ∈ ((List.insertionSort factorGE (factors.filter (fun f =>
          decide (f.severity = RiskLevel.critical) ||
          decide (f.severity = RiskLevel.high)))).take 3).map RiskFactor.category then
        ["Optimize environmental conditions"] else []) ++
      (if Category.time ∈ ((List.insertionSort factorGE (factors.filter (fun f =>
          decide (f.severity = RiskLevel.critical) ||
          decide (f.severity = RiskLevel.high)))).take 3).map RiskFactor.category then
        ["Manage work duration and scheduling"] else []) := by
    split at h2
    · rcases List.mem_cons.mp h2 with he | h2
      · exact absurd he (by decide)
      · exact h2
    · exact h2
  simp only [List.mem_append, mem_ite_singleton] at h3
  rcases h3 with ((((⟨_, he⟩ | ⟨_, he⟩) | ⟨_, he⟩) | ⟨hc, _⟩) | ⟨_, he⟩)
  · exact absurd he (by decide)
  · exact absurd he (by decide)
  · exact absurd he (by decide)
  · obtain ⟨g, hg3, hgcat⟩ := List.mem_map.mp hc
    have hg2 := List.mem_of_mem_take hg3
    have hg1 := (List.perm_insertionSort factorGE _).mem_iff.mp hg2
    exact ⟨g, (List.mem_filter.mp hg1).1, hgcat⟩
  · exact absurd he (by decide)

/-- C10: the aggregator never emits an environment-category factor, so
the environment advisory sentence never appears in its priority areas. -/
theorem C10_theorem : ∀ input : RiskCalculationInput,
    (∀ f, f ∈ generateRiskFactors input → f.category ≠ Category.environment) ∧
    "Optimize environmental conditions" ∉ identifyPriorityAreas (generateRiskFactors input) := by
  intro input
  have hno : ∀ f, f ∈ generateRiskFactors input → f.category ≠ Category.environment := by
    intro f hf
    exact emittedFactors_no_env input f
      ((List.perm_insertionSort factorGE (emittedFactors input)).mem_iff.mp hf)
  refine ⟨hno, fun h => ?_⟩
  obtain ⟨f, hf, hcat⟩ := env_advisory_requires_env_factor _ h
  exact hno f hf hcat

/-- Witness for C10: a 12-hour work day produces exactly the time factor,
which is not an environment factor, and no environment advisory. -/
theorem C10_witness :
    exTimeFactor ∈ generateRiskFactors exInputC10 ∧
    exTimeFactor.category ≠ Category.environment ∧
    "Optimize environmental conditions" ∉
      identifyPriorityAreas (generateRiskFactors exInputC10) := by
  have hgen : generateRiskFactors exInputC10 = [exTimeFactor] := by
    have he : emittedFactors exInputC10 = [exTimeFactor] := by
      simp only [emittedFactors, exInputC10, exUser12, exTimeFactor]
      norm_num [calculatePostureRisk, calculateWorkspaceRisk, calculateMovementRisk,
        calculateSymptomsRisk, neutralPosture, goodWorkspace, calmMovement,
        neckRisk, shoulderRisk, backRisk, elbowRisk, wristRisk, hipRisk, feetRisk,
        ageMultiplier, hoursMultiplier, deskRisk, monitorDistanceRisk, monitorHeightRisk,
        lightingRisk, noiseRisk, breakRisk, stretchRisk, walkRisk, postureChangeRisk,
        typingRisk, mouseClickRisk, reachingRisk, inf_eq_min, min_def,
        show KeyboardPosition.tray ≠ KeyboardPosition.desktop from fun h =>
          KeyboardPosition.noConfusion h]
    show List.insertionSort factorGE (emittedFactors exInputC10) = [exTimeFactor]
    rw [he]
    rfl
  refine ⟨?_, ?_, ?_⟩
  · rw [hgen]; exact List.mem_singleton.mpr rfl
  · exact (C10_theorem exInputC10).1 exTimeFactor (by rw [hgen]; exact List.mem_singleton.mpr rfl)
  · exact (C10_theorem exInputC10).2

end Ergo
